import Mathlib

/-!
Shallow embedding of `drivers/usb/misc/co2meter.c` (co2meter driver v0.1).

The driver bridges a USB CO2 sensor to a read-only character device:
a self-rescheduling work item (`co2meter_handle_input`) polls the bulk-in
endpoint, validates each frame, and caches the latest reading in
`struct usb_co2meter`; `co2meter_open` snapshots the cached reading into a
per-file buffer that `co2meter_read` serves with bounded-copy semantics.

Modelling choices:
- Bytes are `Nat` values; the 16-byte transfer buffer is a `List Nat`
  (indexing uses `List.getD` with default 0, matching `kzalloc` zero-fill).
  In the C source `buf` has type `u8 *`, so in `buf[0] + buf[1] + buf[2]`
  each operand is promoted to `int` and the sum is exact (up to 765),
  never truncated to 8 bits.
- The mutex `dev->lock` is not a value inside the state; instead each
  operation's effect on the lock is recorded explicitly (the Boolean
  `lock_held_on_return` of a poll iteration, the event trace of
  `co2meter_disconnect`, and the lock component of the open/disconnect
  interleaving model), so lock-discipline claims are statements about
  the embedded code paths.
- Kernel library routines that the driver calls but whose bodies are not
  part of this repository snapshot (`scnprintf`, `simple_read_from_buffer`)
  are modelled from the spec; their doc comments say so.
-/

set_option autoImplicit false

namespace Co2meter

/-- Return code `ENODEV` ("no such device"); the driver returns `-ENODEV`. -/
def ENODEV : Int := 19

/-- The guarded fields of `struct usb_co2meter`: the cached reading
`co2_level : u32` and the readiness flag `ready : int` (only ever 0 or 1 in
the source, so modelled as `Bool`).  The mutex, work item and USB handles of
the C struct are modelled separately (see the module doc comment). -/
structure usb_co2meter where
  co2_level : Nat
  ready : Bool
  deriving Repr, DecidableEq

/-- The outcome of one `usb_bulk_msg` call in a poll iteration: the return
value `retval`, the number of bytes actually transferred (`transfer_size`),
and the contents of the 16-byte transfer buffer after the call (the buffer
is `kzalloc`ed, so unwritten bytes are 0). -/
structure TransferResult where
  retval : Int
  transfer_size : Nat
  buf : List Nat
  deriving Repr, DecidableEq

/-- The frame-acceptance condition of `co2meter_handle_input`
(`co2meter.c:104-108`): the transfer succeeded, at least 5 bytes arrived,
`buf[0] == 0x50`, `buf[0] + buf[1] + buf[2] == buf[3]` (operands promoted to
`int`, so the sum is exact), and `buf[4] == 0x0d`. -/
def frame_valid (retval : Int) (transfer_size : Nat) (buf : List Nat) : Bool :=
  retval == 0 &&
  decide (5 ≤ transfer_size) &&
  buf.getD 0 0 == 0x50 &&
  buf.getD 0 0 + buf.getD 1 0 + buf.getD 2 0 == buf.getD 3 0 &&
  buf.getD 4 0 == 0x0d

/-- What one call of `co2meter_handle_input` does: the device state when it
returns, whether it printed the allocation-failure message, whether it
returned while still holding `dev->lock`, and whether it called
`schedule_work` on itself again. -/
structure PollOutcome where
  dev : usb_co2meter
  logged_alloc_failure : Bool
  lock_held_on_return : Bool
  rescheduled : Bool
  deriving Repr, DecidableEq

/-- One poll iteration, `co2meter_handle_input` (`co2meter.c:80-116`).
The function takes `mutex_lock(&dev->lock)` on entry.  If `kzalloc` fails
(`alloc_ok = false`) it logs, reschedules itself and returns — without
releasing the lock (`co2meter.c:86-90` has no `mutex_unlock`).  Otherwise it
releases the lock, issues the bulk transfer (whose outcome is the parameter
`tr`), and on a valid frame re-takes the lock, sets `ready = 1` and
`co2_level = buf[1] * 256 + buf[2]`, and unlocks; in every `alloc_ok` path
it frees the buffer and reschedules itself. -/
def co2meter_handle_input (dev : usb_co2meter) (alloc_ok : Bool)
    (tr : TransferResult) : PollOutcome :=
  if !alloc_ok then
    { dev := dev
      logged_alloc_failure := true
      lock_held_on_return := true
      rescheduled := true }
  else if frame_valid tr.retval tr.transfer_size tr.buf then
    { dev :=
        { ready := true
          co2_level := tr.buf.getD 1 0 * 256 + tr.buf.getD 2 0 }
      logged_alloc_failure := false
      lock_held_on_return := false
      rescheduled := true }
  else
    { dev := dev
      logged_alloc_failure := false
      lock_held_on_return := false
      rescheduled := true }

/-- Decimal digits of `v`, most significant first (`decDigits 400 = [4,0,0]`,
`decDigits 0 = [0]`).  Support for the spec-modelled `scnprintf`. -/
def decDigits (v : Nat) : List Nat :=
  if v < 10 then [v] else decDigits (v / 10) ++ [v % 10]
termination_by v
decreasing_by exact Nat.div_lt_self (by omega) (by omega)

/-- Modelled from the spec: the body of `scnprintf(buf, 32, "%u\n", v)` is
not part of this repository snapshot; the spec says the session buffer holds
"the ASCII decimal value of the most recent CO2 ppm reading followed by a
newline".  The result is the byte sequence written: ASCII digits
(`0x30 + d`) of `v` followed by `0x0a`.  For a `u32` value this is at most
11 bytes, far below the 32-byte capacity, so the `scnprintf` bound never
truncates. -/
def co2_format (v : Nat) : List Nat :=
  (decDigits v).map (fun d => 48 + d) ++ [10]

/-- `struct co2meter_file_data` (`co2meter.c:179-182`): the per-open session.
`buf` holds the `buf_size` bytes that `scnprintf` wrote (the rest of the
32-byte C array stays zero and is never served). -/
structure co2meter_file_data where
  buf : List Nat
  buf_size : Nat
  deriving Repr, DecidableEq

/-- How a call of `co2meter_open` ends: returning an error code, returning 0
with a session stored in `file->private_data`, or writing through the null
pointer returned by a failed `kzalloc` (the source performs
`file_data->buf_size = ...` without a null check, `co2meter.c:201-202`). -/
inductive OpenResult where
  | err : Int → OpenResult
  | ok : co2meter_file_data → OpenResult
  | null_deref : OpenResult
  deriving Repr, DecidableEq

/-- `co2meter_open` (`co2meter.c:184-206`).  Parameters: whether
`usb_find_interface` found an interface for the requested minor
(`interface_found`), the device state `dev` read under the lock, and whether
the `kzalloc` of the session succeeded (`alloc_ok`).  Returns the call's
outcome together with the device state when the call is over — the source
never writes any field of `struct usb_co2meter` on this path, so the state
returned is the state passed in, path by path. -/
def co2meter_open (interface_found : Bool) (dev : usb_co2meter)
    (alloc_ok : Bool) : OpenResult × usb_co2meter :=
  if !interface_found then
    (.err (-ENODEV), dev)
  else if !dev.ready then
    (.err (-ENODEV), dev)
  else if !alloc_ok then
    (.null_deref, dev)
  else
    (.ok { buf := co2_format dev.co2_level
           buf_size := (co2_format dev.co2_level).length }, dev)

/-- Modelled from the spec: the body of `simple_read_from_buffer` is not
part of this repository snapshot; the spec says read serves "bytes from the
session's formatted buffer at the caller-supplied offset/count, standard
bounded-copy semantics (return 0 once offset reaches end-of-buffer)".
Given `count`, the current offset `pos` and the `available` buffer length,
returns the number of bytes copied and the updated offset. -/
def simple_read_from_buffer (count pos available : Nat) : Nat × Nat :=
  if available ≤ pos then (0, pos)
  else
    let c := min count (available - pos)
    (c, pos + c)

/-- `co2meter_read` (`co2meter.c:208-217`): `-ENODEV` when
`file->private_data` is null (open never stored a session), otherwise
`simple_read_from_buffer` over the session's `buf_size` bytes.  On success
the result carries (bytes copied, updated `*ppos`). -/
def co2meter_read (private_data : Option co2meter_file_data)
    (count ppos : Nat) : Except Int (Nat × Nat) :=
  match private_data with
  | none => .error (-ENODEV)
  | some file_data => .ok (simple_read_from_buffer count ppos file_data.buf_size)

/-- `co2meter_release` (`co2meter.c:219-225`): frees the session if any and
returns 0.  Modelled by its return value; the effect on the driver state is
`release_step` below. -/
def co2meter_release (private_data : Option co2meter_file_data) : Int :=
  match private_data with
  | none => 0
  | some _ => 0

/-- Combined state of one device instance and one file handle: the guarded
fields of `struct usb_co2meter` plus the session stored (or not) in
`file->private_data`. -/
structure DriverState where
  dev : usb_co2meter
  session : Option co2meter_file_data
  deriving Repr, DecidableEq

/-- Effect of one poll iteration on the combined state:
`co2meter_handle_input` touches only `struct usb_co2meter`; no poll path
reads or writes any `co2meter_file_data`. -/
def poll_step (s : DriverState) (alloc_ok : Bool) (tr : TransferResult) :
    DriverState :=
  { s with dev := (co2meter_handle_input s.dev alloc_ok tr).dev }

/-- Effect of `co2meter_open` on the combined state: only a successful open
stores a session in `file->private_data` (`co2meter.c:203`); failing paths
return before the store. -/
def open_step (s : DriverState) (interface_found alloc_ok : Bool) :
    DriverState :=
  match (co2meter_open interface_found s.dev alloc_ok).1 with
  | .ok file_data => { s with session := some file_data }
  | _ => s

/-- Effect of `co2meter_read` on the combined state: none — it writes only
the user buffer and `*ppos`. -/
def read_step (s : DriverState) (_count _ppos : Nat) : DriverState :=
  s

/-- Effect of `co2meter_release` on the combined state: the session is
freed; the device fields are untouched. -/
def release_step (s : DriverState) : DriverState :=
  { s with session := none }

/-- The primitive calls a teardown path can make, in program order.
`mutex_unlock` is included so that lock-balance analyses of a trace are
meaningful; the disconnect path of this driver happens never to emit it. -/
inductive DiscEv where
  | cancel_work_sync
  | mutex_lock
  | mutex_unlock
  | usb_deregister_dev
  | kfree_dev
  | ret
  deriving Repr, DecidableEq

/-- The event trace of `co2meter_disconnect` (`co2meter.c:164-176`),
transliterated line by line: `cancel_work_sync(&dev->work_data)`;
`mutex_lock(&dev->lock)`; `usb_deregister_dev(...)`;
`co2meter_delete(dev)` — which is `kfree(dev)` (`co2meter.c:159-162`) —
and the return.  There is no `mutex_unlock` anywhere on the path. -/
def co2meter_disconnect_events : List DiscEv :=
  [.cancel_work_sync, .mutex_lock, .usb_deregister_dev, .kfree_dev, .ret]

/-- Whether a trace performs `kfree_dev` at a point where `dev->lock` is
held (first argument: is the lock held when the trace starts). -/
def kfree_while_locked (held : Bool) : List DiscEv → Bool
  | [] => false
  | .mutex_lock :: rest => kfree_while_locked true rest
  | .mutex_unlock :: rest => kfree_while_locked false rest
  | .kfree_dev :: rest => held || kfree_while_locked held rest
  | _ :: rest => kfree_while_locked held rest

/-- Whether a trace reaches its `ret` with `dev->lock` held. -/
def returns_while_locked (held : Bool) : List DiscEv → Bool
  | [] => false
  | .mutex_lock :: rest => returns_while_locked true rest
  | .mutex_unlock :: rest => returns_while_locked false rest
  | .ret :: rest => held || returns_while_locked held rest
  | _ :: rest => returns_while_locked held rest

/-- Program counter of an `open(2)` call running `co2meter_open`, at the
granularity of its accesses to shared state (`co2meter.c:184-206`). -/
inductive OpenPc where
  | find_intf
  | get_intfdata
  | lock_dev
  | critical
  | ret_enodev
  | done
  deriving Repr, DecidableEq

/-- Program counter of a concurrent `co2meter_disconnect` call
(`co2meter.c:164-176`). -/
inductive DiscPc where
  | cancel_work
  | lock_dev
  | deregister
  | free_dev
  | done
  deriving Repr, DecidableEq

/-- Shared state for the open/disconnect interleaving: the two program
counters, whether the minor is still registered (controls
`usb_find_interface`), whether `dev->lock` is held, whether
`kfree(dev)` has run, and whether the open thread has touched `*dev`
after that `kfree` (a use after free). -/
structure RaceState where
  open_pc : OpenPc
  disc_pc : DiscPc
  registered : Bool
  lock_held : Bool
  dev_freed : Bool
  uaf_open : Bool
  deriving Repr, DecidableEq

/-- Initial state: a live device (probe completed), both calls about to
start. -/
def race_init : RaceState :=
  { open_pc := .find_intf
    disc_pc := .cancel_work
    registered := true
    lock_held := false
    dev_freed := false
    uaf_open := false }

/-- One step of the open thread, following the source line by line:
`usb_find_interface` succeeds exactly while the minor is registered;
`usb_get_intfdata` reads the interface (disconnect never clears it);
`mutex_lock(&dev->lock)` dereferences `dev` — if `dev` has been freed this
is a use after free, otherwise it blocks until the lock is free; the
critical section then checks `ready`, builds the session and unlocks
(both of its exits unlock, `co2meter.c:197` and `co2meter.c:204`). -/
def open_thread_step (s : RaceState) : RaceState :=
  match s.open_pc with
  | .find_intf =>
      if s.registered then { s with open_pc := .get_intfdata }
      else { s with open_pc := .ret_enodev }
  | .get_intfdata => { s with open_pc := .lock_dev }
  | .lock_dev =>
      if s.dev_freed then { s with uaf_open := true }
      else if !s.lock_held then { s with open_pc := .critical, lock_held := true }
      else s
  | .critical => { s with open_pc := .done, lock_held := false }
  | .ret_enodev => s
  | .done => s

/-- One step of the disconnect thread, following the source line by line:
`cancel_work_sync` (it synchronously stops the self-rescheduling work item;
the poll loop is therefore not part of this interleaving model);
`mutex_lock(&dev->lock)` blocks until the lock is free;
`usb_deregister_dev` unregisters the minor; `kfree(dev)` frees the device
state with the lock still held; the function then returns without ever
unlocking. -/
def disc_thread_step (s : RaceState) : RaceState :=
  match s.disc_pc with
  | .cancel_work => { s with disc_pc := .lock_dev }
  | .lock_dev =>
      if !s.lock_held then { s with disc_pc := .deregister, lock_held := true }
      else s
  | .deregister => { s with disc_pc := .free_dev, registered := false }
  | .free_dev => { s with disc_pc := .done, dev_freed := true }
  | .done => s

/-- A scheduler choice: which thread runs its next step. -/
inductive RaceTid where
  | opener
  | detacher
  deriving Repr, DecidableEq

/-- Run one scheduled step of the interleaving. -/
def race_step (t : RaceTid) (s : RaceState) : RaceState :=
  match t with
  | .opener => open_thread_step s
  | .detacher => disc_thread_step s

/-- Run a finite schedule from a state. -/
def race_run (sched : List RaceTid) (s : RaceState) : RaceState :=
  match sched with
  | [] => s
  | t :: rest => race_run rest (race_step t s)

/-- The interleaving that breaks the teardown contract: the open call
resolves the minor and fetches `dev` from the interface data, the
disconnect call then runs to completion (cancel, lock, deregister, free,
return — still holding the lock), and the open call then executes
`mutex_lock(&dev->lock)` on the freed `dev`. -/
def race_uaf_schedule : List RaceTid :=
  [.opener, .opener, .detacher, .detacher, .detacher, .detacher, .opener]

/-! Helper lemmas shared by the claim theorems. -/

/-- Unfolding of the frame-acceptance condition into its five conjuncts. -/
theorem frame_valid_eq_true_iff (r : Int) (ts : Nat) (buf : List Nat) :
    frame_valid r ts buf = true ↔
      r = 0 ∧ 5 ≤ ts ∧ buf.getD 0 0 = 0x50 ∧
      buf.getD 0 0 + buf.getD 1 0 + buf.getD 2 0 = buf.getD 3 0 ∧
      buf.getD 4 0 = 0x0d := by
  simp [frame_valid, and_assoc]

/-- A value below `10 ^ k` has at most `k` decimal digits (for `k ≥ 1`). -/
theorem decDigits_length_le (k : Nat) : ∀ v : Nat, 0 < k → v < 10 ^ k →
    (decDigits v).length ≤ k := by
  induction k with
  | zero => intro v h; omega
  | succ k ih =>
    intro v _ hv
    rw [decDigits]
    by_cases h10 : v < 10
    · simp [h10]
    · simp [h10]
      have hk : 0 < k := by
        rcases Nat.eq_zero_or_pos k with h0 | h0
        · subst h0; simp at hv; omega
        · exact h0
      have hdiv : v / 10 < 10 ^ k := by
        have hv' : v < 10 * 10 ^ k := by
          calc v < 10 ^ (k + 1) := hv
          _ = 10 * 10 ^ k := by ring
        exact Nat.div_lt_of_lt_mul hv'
      have := ih (v / 10) hk hdiv
      omega

/-- For positive values, `decDigits` agrees with Mathlib's base-10 digit
expansion read most-significant-first, grounding the spec's phrase
"ASCII decimal rendering" in an independent definition. -/
theorem decDigits_eq_digits_reverse : ∀ v : Nat, 0 < v →
    decDigits v = (Nat.digits 10 v).reverse := by
  intro v
  induction v using Nat.strong_induction_on with
  | _ v ih =>
    intro hv
    rw [decDigits, Nat.digits_def' (b := 10) (by norm_num) hv]
    by_cases h10 : v < 10
    · have hd : v / 10 = 0 := Nat.div_eq_of_lt h10
      simp [h10, hd, Nat.mod_eq_of_lt h10]
    · have hpos : 0 < v / 10 := Nat.div_pos (by omega) (by omega)
      simp [h10, ih (v / 10) (Nat.div_lt_self hv (by omega)) hpos]

/-! Claim theorems. -/

/-- C1: the claim says no open racing a detach ever dereferences the device
state after it is freed.  The code violates this: in the interleaving where
`co2meter_open` resolves the minor and reads the interface data and
`co2meter_disconnect` then runs to completion (it `kfree`s `dev` and
returns still holding `dev->lock`, and never clears the interface data),
the open call's `mutex_lock(&dev->lock)` executes on the freed device
state — a use after free.  The disconnect side does reach completion, so
this is not an artifact of a truncated schedule. -/
theorem open_detach_use_after_free :
    (race_run race_uaf_schedule race_init).uaf_open = true ∧
    (race_run race_uaf_schedule race_init).dev_freed = true ∧
    (race_run race_uaf_schedule race_init).disc_pc = DiscPc.done := by decide

/-- C2: the claim says an allocation-failure iteration logs and reschedules
without leaving the device permanently stalled, the guard remaining
acquirable.  The code logs and reschedules but returns from
`co2meter_handle_input` still holding `dev->lock` (`co2meter.c:86-90` has no
`mutex_unlock`), so the rescheduled iteration — whose first action is
`mutex_lock(&dev->lock)` — and every subsequent `co2meter_open` block
forever. -/
theorem alloc_failure_returns_with_lock_held :
    co2meter_handle_input { co2_level := 412, ready := true } false ⟨0, 0, []⟩ =
      { dev := { co2_level := 412, ready := true }
        logged_alloc_failure := true
        lock_held_on_return := true
        rescheduled := true } := by decide

/-- C3 counterexample: the claim says a frame is accepted exactly when
`(byte[0] + byte[1] + byte[2]) % 256 = byte[3]`, including frames whose true
sum exceeds 255.  The frame `[0x50, 0xFF, 0xFF, 0x4E, 0x0d]` satisfies the
mod-256 equation (`0x642 % 256 = 0x4E`) yet `frame_valid` rejects it,
because the C comparison promotes the `u8` operands to `int` and compares
the exact sum `0x642` with `0x4E`. -/
theorem checksum_mod256_claim_fails :
    (0x50 + 0xFF + 0xFF) % 256 = 0x4E ∧
    frame_valid 0 16 [0x50, 0xFF, 0xFF, 0x4E, 0x0d, 0, 0, 0, 0, 0, 0, 0, 0, 0, 0, 0] = false := by
  decide

/-- C3 (amended): for every frame with `byte[0] = 0x50`, `byte[4] = 0x0d`, a
successful transfer of at least 5 bytes, and `byte[3] < 256` (it is a `u8`),
the checksum comparison is exact integer arithmetic on the promoted byte
values: the frame is accepted iff `byte[0] + byte[1] + byte[2] = byte[3]`
with no 8-bit truncation, so every frame whose true three-byte sum exceeds
255 is rejected. -/
theorem checksum_exact_sum (b1 b2 b3 ts : Nat) (pad : List Nat)
    (h3 : b3 < 256) (hts : 5 ≤ ts) :
    (frame_valid 0 ts (0x50 :: b1 :: b2 :: b3 :: 0x0d :: pad) = true ↔
      0x50 + b1 + b2 = b3) ∧
    (255 < 0x50 + b1 + b2 →
      frame_valid 0 ts (0x50 :: b1 :: b2 :: b3 :: 0x0d :: pad) = false) := by
  constructor
  · simp [frame_valid, hts]
  · intro hsum
    have hne : ¬ (0x50 + b1 + b2 = b3) := by omega
    simp [frame_valid, hts, hne]

/-- Witness for the amended C3 at the concrete frame
`[0x50, 0xFF, 0xFF, 0x4E, 0x0d]` with a 16-byte transfer. -/
theorem checksum_exact_sum_witness :
    (0x4E : Nat) < 256 ∧ (5 : Nat) ≤ 16 ∧
    ((frame_valid 0 16 (0x50 :: 0xFF :: 0xFF :: 0x4E :: 0x0d :: []) = true ↔
       0x50 + 0xFF + 0xFF = 0x4E) ∧
     (255 < 0x50 + 0xFF + 0xFF →
       frame_valid 0 16 (0x50 :: 0xFF :: 0xFF :: 0x4E :: 0x0d :: []) = false)) :=
  ⟨by decide, by decide, checksum_exact_sum 0xFF 0xFF 0x4E 16 [] (by decide) (by decide)⟩

/-- C4 counterexample: the claim says the decoder accepts
`[0x50, 0x01, 0x90, 0x91, 0x0d]` and sets `ready = true`,
`cached_reading = 400`.  In fact `0x50 + 0x01 + 0x90 = 0xE1 ≠ 0x91`
(in exact arithmetic and mod 256 alike), so `frame_valid` rejects the
frame and the poll iteration leaves the device state untouched. -/
theorem spec_fixture_rejected :
    frame_valid 0 16 [0x50, 0x01, 0x90, 0x91, 0x0d, 0, 0, 0, 0, 0, 0, 0, 0, 0, 0, 0] = false ∧
    (co2meter_handle_input { co2_level := 0, ready := false } true
      ⟨0, 16, [0x50, 0x01, 0x90, 0x91, 0x0d, 0, 0, 0, 0, 0, 0, 0, 0, 0, 0, 0]⟩).dev =
      { co2_level := 0, ready := false } := by decide

/-- C4 (amended): with the checksum byte fixed to the actual sum,
`byte[3] = 0xE1`, the frame `[0x50, 0x01, 0x90, 0xE1, 0x0d]` is accepted by
the poll iteration, which sets `ready = true` and
`co2_level = 0x01 * 256 + 0x90 = 400`. -/
theorem corrected_fixture_accepted :
    (co2meter_handle_input { co2_level := 0, ready := false } true
      ⟨0, 16, [0x50, 0x01, 0x90, 0xE1, 0x0d, 0, 0, 0, 0, 0, 0, 0, 0, 0, 0, 0]⟩).dev =
      { co2_level := 400, ready := true } := by decide

/-- C5: a poll iteration whose transfer failed (`retval ≠ 0`), transferred
fewer than 5 bytes, or returned a buffer failing the header, checksum or
terminator check leaves `ready` and `co2_level` unchanged, surfaces no
error, does not return holding the lock, and reschedules the loop. -/
theorem invalid_frame_no_reading (dev : usb_co2meter) (tr : TransferResult)
    (h : ¬ tr.retval = 0 ∨ tr.transfer_size < 5 ∨ ¬ tr.buf.getD 0 0 = 0x50 ∨
      ¬ tr.buf.getD 0 0 + tr.buf.getD 1 0 + tr.buf.getD 2 0 = tr.buf.getD 3 0 ∨
      ¬ tr.buf.getD 4 0 = 0x0d) :
    co2meter_handle_input dev true tr =
      { dev := dev
        logged_alloc_failure := false
        lock_held_on_return := false
        rescheduled := true } := by
  have hfv : frame_valid tr.retval tr.transfer_size tr.buf = false := by
    rw [Bool.eq_false_iff]
    intro htrue
    rw [frame_valid_eq_true_iff] at htrue
    obtain ⟨h0, h5, hh, hc, ht⟩ := htrue
    rcases h with h | h | h | h | h
    · exact h h0
    · omega
    · exact h hh
    · exact h hc
    · exact h ht
  simp [co2meter_handle_input, hfv]

/-- Witness for C5 at a concrete failed transfer (`usb_bulk_msg` returned
`-ETIMEDOUT = -110`, nothing transferred). -/
theorem invalid_frame_no_reading_witness :
    (¬ (-110 : Int) = 0 ∨ (0 : Nat) < 5 ∨ ¬ ([] : List Nat).getD 0 0 = 0x50 ∨
      ¬ ([] : List Nat).getD 0 0 + ([] : List Nat).getD 1 0 + ([] : List Nat).getD 2 0 =
          ([] : List Nat).getD 3 0 ∨
      ¬ ([] : List Nat).getD 4 0 = 0x0d) ∧
    co2meter_handle_input { co2_level := 412, ready := true } true ⟨-110, 0, []⟩ =
      { dev := { co2_level := 412, ready := true }
        logged_alloc_failure := false
        lock_held_on_return := false
        rescheduled := true } :=
  ⟨Or.inl (by decide),
   invalid_frame_no_reading { co2_level := 412, ready := true } ⟨-110, 0, []⟩
     (Or.inl (by decide))⟩

/-- C6: open returns `-ENODEV` both when `usb_find_interface` finds no
interface for the requested minor and when the guarded `ready` flag is
false, and read returns `-ENODEV` when no session was ever stored on the
file; in each failing case the device state is returned unchanged. -/
theorem open_read_enodev_uniform :
    (∀ (dev : usb_co2meter) (alloc_ok : Bool),
      co2meter_open false dev alloc_ok = (.err (-ENODEV), dev)) ∧
    (∀ (found : Bool) (dev : usb_co2meter) (alloc_ok : Bool), dev.ready = false →
      co2meter_open found dev alloc_ok = (.err (-ENODEV), dev)) ∧
    (∀ count ppos : Nat, co2meter_read none count ppos = .error (-ENODEV)) := by
  refine ⟨?_, ?_, ?_⟩
  · intro dev alloc_ok; simp [co2meter_open]
  · intro found dev alloc_ok h; cases found <;> simp [co2meter_open, h]
  · intro count ppos; rfl

/-- Witness for C6: an un-warmed device (`ready = false`) fails open with
`-ENODEV` and is left unchanged. -/
theorem open_read_enodev_uniform_witness :
    ({ co2_level := 0, ready := false } : usb_co2meter).ready = false ∧
    co2meter_open true { co2_level := 0, ready := false } true =
      (.err (-ENODEV), { co2_level := 0, ready := false }) :=
  ⟨rfl, open_read_enodev_uniform.2.1 true { co2_level := 0, ready := false } true rfl⟩

/-- C7: a session opened while `co2_level = v` (with the device ready and
allocation succeeding) carries exactly the ASCII decimal rendering of `v`
followed by a newline; its length is the decimal digit count of `v` plus
one, at most 11 bytes for a 32-bit value; and each read at offset `o` for
`count` bytes copies `min count (length - o)` bytes and returns that number,
returning 0 once `o` has reached the length. -/
theorem session_format_and_read_bounds (v : Nat) (hv : v < 2 ^ 32) :
    (co2meter_open true { co2_level := v, ready := true } true).1 =
      .ok { buf := co2_format v, buf_size := (co2_format v).length } ∧
    co2_format v = (decDigits v).map (fun d => 48 + d) ++ [10] ∧
    (co2_format v).length = (decDigits v).length + 1 ∧
    (co2_format v).length ≤ 11 ∧
    (0 < v → co2_format v = ((Nat.digits 10 v).reverse.map (fun d => 48 + d)) ++ [10]) ∧
    (∀ count o : Nat, o < (co2_format v).length →
      co2meter_read (some { buf := co2_format v, buf_size := (co2_format v).length }) count o =
        .ok (min count ((co2_format v).length - o),
             o + min count ((co2_format v).length - o))) ∧
    (∀ count o : Nat, (co2_format v).length ≤ o →
      co2meter_read (some { buf := co2_format v, buf_size := (co2_format v).length }) count o =
        .ok (0, o)) := by
  have hlen : (co2_format v).length = (decDigits v).length + 1 := by
    simp [co2_format]
  refine ⟨rfl, rfl, hlen, ?_, ?_, ?_, ?_⟩
  · have h10 : v < 10 ^ 10 := by
      calc v < 2 ^ 32 := hv
      _ < 10 ^ 10 := by norm_num
    have := decDigits_length_le 10 v (by norm_num) h10
    omega
  · intro hpos
    rw [co2_format, decDigits_eq_digits_reverse v hpos]
  · intro count o ho
    simp [co2meter_read, simple_read_from_buffer, Nat.not_le.mpr ho]
  · intro count o ho
    simp [co2meter_read, simple_read_from_buffer, ho]

/-- Witness for C7 at `v = 412`: the session is stored and a 100-byte read
from offset 0 copies `min 100 4` bytes. -/
theorem session_format_and_read_bounds_witness :
    (412 : Nat) < 2 ^ 32 ∧
    (co2meter_open true { co2_level := 412, ready := true } true).1 =
      .ok { buf := co2_format 412, buf_size := (co2_format 412).length } ∧
    co2meter_read (some { buf := co2_format 412, buf_size := (co2_format 412).length }) 100 0 =
      .ok (min 100 ((co2_format 412).length - 0),
           0 + min 100 ((co2_format 412).length - 0)) :=
  ⟨by norm_num, (session_format_and_read_bounds 412 (by norm_num)).1,
   (session_format_and_read_bounds 412 (by norm_num)).2.2.2.2.2.1 100 0
     (by simp [co2_format, decDigits])⟩

/-- C8: a poll iteration never touches the stored session, open returns the
device fields unchanged on every path and stores a session only on success,
read changes nothing, release drops only the session, and two opens against
equal `(co2_level, ready)` produce identical results — so repeated opens
while the cached reading is unchanged yield identical formatted text. -/
theorem snapshot_isolation :
    (∀ (s : DriverState) (alloc_ok : Bool) (tr : TransferResult),
      (poll_step s alloc_ok tr).session = s.session) ∧
    (∀ (found : Bool) (dev : usb_co2meter) (alloc_ok : Bool),
      (co2meter_open found dev alloc_ok).2 = dev) ∧
    (∀ (s : DriverState) (found alloc_ok : Bool),
      (open_step s found alloc_ok).dev = s.dev) ∧
    (∀ (s : DriverState) (count ppos : Nat), read_step s count ppos = s) ∧
    (∀ s : DriverState, (release_step s).dev = s.dev) ∧
    (∀ (found alloc_ok : Bool) (d₁ d₂ : usb_co2meter),
      d₁.co2_level = d₂.co2_level → d₁.ready = d₂.ready →
      co2meter_open found d₁ alloc_ok = co2meter_open found d₂ alloc_ok) := by
  refine ⟨?_, ?_, ?_, ?_, ?_, ?_⟩
  · intro s alloc_ok tr; rfl
  · intro found dev alloc_ok
    unfold co2meter_open
    split <;> try rfl
    split <;> try rfl
    split <;> rfl
  · intro s found alloc_ok
    unfold open_step
    split <;> rfl
  · intro s count ppos; rfl
  · intro s; rfl
  · intro found alloc_ok d₁ d₂ h₁ h₂
    have : d₁ = d₂ := by cases d₁; cases d₂; simp_all
    rw [this]

/-- Witness for C8: a poll iteration that decodes a new reading leaves a
concrete stored session untouched, and two opens at the same device fields
coincide. -/
theorem snapshot_isolation_witness :
    (poll_step
        { dev := { co2_level := 400, ready := true }
          session := some { buf := [52, 48, 48, 10], buf_size := 4 } }
        true ⟨0, 16, [0x50, 0x02, 0x00, 0x52, 0x0d]⟩).session =
      some { buf := [52, 48, 48, 10], buf_size := 4 } ∧
    co2meter_open true { co2_level := 400, ready := true } true =
      co2meter_open true { co2_level := 400, ready := true } true :=
  ⟨snapshot_isolation.1 _ true _,
   snapshot_isolation.2.2.2.2.2 true true { co2_level := 400, ready := true }
     { co2_level := 400, ready := true } rfl rfl⟩

/-- C9: the claim says every operation that takes the guard releases it
before returning, and in particular that detach unlocks before the device
state is freed.  The transliterated trace of `co2meter_disconnect` refutes
both parts: it performs `kfree(dev)` with `dev->lock` held and reaches its
return with the lock still held — there is no `mutex_unlock` on the path
(`co2meter.c:164-176`), so the mutex is destroyed while locked. -/
theorem disconnect_frees_device_while_locked :
    kfree_while_locked false co2meter_disconnect_events = true ∧
    returns_while_locked false co2meter_disconnect_events = true := by decide

/-- C10: the claim says open returns an error on session-allocation failure
without dereferencing the failed allocation.  The code has no null check
after `kzalloc` (`co2meter.c:201-202`): with a ready device and
`alloc_ok = false`, `co2meter_open` writes `file_data->buf_size` through the
null pointer instead of returning an error. -/
theorem open_alloc_failure_null_deref :
    (co2meter_open true { co2_level := 412, ready := true } false).1 = .null_deref := by rfl

end Co2meter
